import Mathlib

/-!
Verification of the `esp_psram` SPI pseudo-SRAM driver (`src/psram.rs`,
`src/error.rs`, `src/lib.rs`) against its specification.

The Rust code is shallowly embedded: bytes are `Nat` below 256, buffers are
`List Nat`, the SPI transfer and chip-select GPIO collaborators are modelled
by an explicit world `W` holding an outcome schedule for each primitive, an
event trace of the bus operations the driver performed, and the current
chip-select level.  Fallible driver operations return `Except Error _` (or
`POut _` where the Rust code can panic) together with the updated world.
-/

/-- The unified error type of the crate (`src/error.rs`).  The wrapped native
SPI/GPIO error payloads are opaque to the driver and dropped here; the hidden
`__NonExhaustive` variant is uninhabited and therefore omitted. -/
inductive Error where
  | Spi
  | Gpio
  | InvalidDevice
  | InvalidMode
deriving DecidableEq, Repr

/-- Outcome of a Rust computation that may panic: `ok`, an `Error`, or a
panic (index out of bounds / failed `unwrap`). -/
inductive POut (α : Type) where
  | ok (val : α)
  | err (e : Error)
  | panic
deriving DecidableEq, Repr

/-- Device identification record (`Identification` in `src/psram.rs`):
48-bit EID widened to 64 bits plus the known-good flag. -/
structure Identification where
  eid : Nat
  known_good_device : Bool
deriving DecidableEq, Repr

/-- Big-endian interpretation of a byte list, as `u64::from_be_bytes` does for
an 8-byte array. -/
def beBytes (l : List Nat) : Nat :=
  l.foldl (fun acc b => acc * 256 + b) 0

/-- The copy loop of `Identification::from_bytes`:
`for (index, i) in buf[2..].iter().enumerate() { bytes[index + 2] = *i; }`.
Writing past the end of the 8-byte `bytes` array is a Rust panic, returned
as `none`. -/
def fillBytes (src : List Nat) (idx : Nat) (bytes : List Nat) : Option (List Nat) :=
  match src with
  | [] => some bytes
  | b :: rest =>
      if idx + 2 < bytes.length then
        fillBytes rest (idx + 1) (bytes.set (idx + 2) b)
      else
        none

/-- `Identification::from_bytes` (src/psram.rs lines 30-56): length check,
vendor-signature check, known-good flag from byte 1, then the copy loop into
an 8-byte array followed by `u64::from_be_bytes`. -/
def from_bytes (buf : List Nat) : POut Identification :=
  if buf.length < 10 then
    .err .InvalidDevice
  else if buf.getD 0 0 ≠ 0x0D then
    .err .InvalidDevice
  else
    let known_good := buf.getD 1 0 == 0x5D
    match fillBytes (buf.drop 2) 0 (List.replicate 8 0) with
    | none => .panic
    | some bytes => .ok ⟨beBytes bytes, known_good⟩

example : from_bytes [1] = .err .InvalidDevice := by decide
example : from_bytes [0x0D, 0x5D, 1, 2, 3, 4, 5, 6, 0, 0] = .panic := by decide
example : from_bytes [0x0C, 0x5D, 1, 2, 3, 4, 5, 6, 0, 0] = .err .InvalidDevice := by decide

/-- Frequency class (`Freq` in src/psram.rs). -/
inductive Freq where
  | ThreeThree
  | EightyFour
  | OneZeroFour
  | OneThreeThree
  | OneFourFour
deriving DecidableEq, Repr

/-- Burst-length mode (`BurstLength` in src/psram.rs). -/
inductive BurstLength where
  | None
  | ThirtyTwoByte
  | OneKByte
deriving DecidableEq, Repr

/-- A bus event the driver performed: chip-select driven low (asserted),
driven high (deasserted), or one duplex SPI transfer whose request bytes were
`req`.  A transfer event is recorded even when the transfer fails (the
attempt reached the bus); a failed GPIO set records no event (the line did not
change). -/
inductive Ev where
  | csLow
  | csHigh
  | spi (req : List Nat)
deriving DecidableEq, Repr

/-- The world the driver's two collaborators live in: an outcome schedule for
the SPI transfer primitive (`spiOut n = none` means the `n`-th transfer fails,
`some r` means it succeeds and the buffer is overwritten with `r`, padded with
zeros to the buffer's length), an outcome schedule for the GPIO sets
(`gpioOut n = false` means the `n`-th chip-select set fails), the indices of
the next outcomes to consume, the trace of events performed so far, and the
current chip-select level (`true` = high = deasserted). -/
structure W where
  spiOut : Nat → Option (List Nat)
  spiIdx : Nat
  gpioOut : Nat → Bool
  gpioIdx : Nat
  events : List Ev
  csLevel : Bool

/-- `cs.try_set_low()`: consume the next GPIO outcome; on success the line
goes low and the event is recorded. -/
def csSetLow (w : W) : Except Unit Unit × W :=
  if w.gpioOut w.gpioIdx then
    (.ok (), { w with gpioIdx := w.gpioIdx + 1,
                      events := w.events ++ [Ev.csLow], csLevel := false })
  else
    (.error (), { w with gpioIdx := w.gpioIdx + 1 })

/-- `cs.try_set_high()`: consume the next GPIO outcome; on success the line
goes high and the event is recorded. -/
def csSetHigh (w : W) : Except Unit Unit × W :=
  if w.gpioOut w.gpioIdx then
    (.ok (), { w with gpioIdx := w.gpioIdx + 1,
                      events := w.events ++ [Ev.csHigh], csLevel := true })
  else
    (.error (), { w with gpioIdx := w.gpioIdx + 1 })

/-- `spi.try_transfer(buf)`: a full-duplex exchange.  The request bytes are
recorded in the trace; on success the buffer is replaced in place by the
scheduled response, truncated/zero-padded to the buffer's length. -/
def spiTransfer (buf : List Nat) (w : W) : Except Unit (List Nat) × W :=
  let w1 : W := { w with spiIdx := w.spiIdx + 1, events := w.events ++ [Ev.spi buf] }
  match w.spiOut w.spiIdx with
  | none => (.error (), w1)
  | some r => (.ok ((List.range buf.length).map fun k => r.getD k 0), w1)

/-- Driver state (`PSRAM` in src/psram.rs): the two collaborator handles are
the world `W`, threaded separately; the driver record keeps the two pieces of
session state. -/
structure PSRAM where
  freq : Freq
  burst_length : BurstLength
deriving DecidableEq, Repr

/-- `PSRAM::command` (src/psram.rs lines 168-175): assert chip-select, one
duplex transfer, deassert chip-select unconditionally, then surface the
transfer failure.  Returns the response buffer on success. -/
def command (bytes : List Nat) (w : W) : Except Error (List Nat) × W :=
  match csSetLow w with
  | (.error _, w) => (.error .Gpio, w)
  | (.ok _, w) =>
    let (spi_result, w) := spiTransfer bytes w
    match csSetHigh w with
    | (.error _, w) => (.error .Gpio, w)
    | (.ok _, w) =>
      match spi_result with
      | .error _ => (.error .Spi, w)
      | .ok resp => (.ok resp, w)

/-- `PSRAM::init` (src/psram.rs lines 138-166): build the record, reject any
frequency other than 33 MHz, and if the requested burst length is 32-byte,
issue the toggle command inline.  Note the inline exchange checks the SPI
result with `?` before `try_set_high`. -/
def init (freq : Freq) (burst_length : BurstLength) (w : W) :
    Except Error PSRAM × W :=
  let this : PSRAM := { freq := freq, burst_length := burst_length }
  if freq ≠ Freq.ThreeThree then
    (.error .InvalidMode, w)
  else if burst_length = BurstLength.ThirtyTwoByte then
    match csSetLow w with
    | (.error _, w) => (.error .Gpio, w)
    | (.ok _, w) =>
      let (spi_result, w) := spiTransfer [0xC0] w
      match spi_result with
      | .error _ => (.error .Spi, w)
      | .ok _ =>
        match csSetHigh w with
        | (.error _, w) => (.error .Gpio, w)
        | (.ok _, w) => (.ok this, w)
  else
    (.ok this, w)

/-- `PSRAM::read_id` (src/psram.rs lines 178-186): 14-byte buffer with the
0x9F opcode first, one command exchange, then parse from byte 4 on. -/
def read_id (w : W) : POut Identification × W :=
  let buf : List Nat := 0x9F :: List.replicate 13 0
  match command buf w with
  | (.error e, w) => (.err e, w)
  | (.ok resp, w) => (from_bytes (resp.drop 4), w)

/-- `PSRAM::reset` (src/psram.rs lines 189-203): reset-enable exchange (SPI
result checked before `try_set_high`), then reset exchange (`try_set_high`
before the SPI result is checked). -/
def reset (w : W) : Except Error Unit × W :=
  match csSetLow w with
  | (.error _, w) => (.error .Gpio, w)
  | (.ok _, w) =>
    let (r1, w) := spiTransfer [0x66] w
    match r1 with
    | .error _ => (.error .Spi, w)
    | .ok _ =>
      match csSetHigh w with
      | (.error _, w) => (.error .Gpio, w)
      | (.ok _, w) =>
        match csSetLow w with
        | (.error _, w) => (.error .Gpio, w)
        | (.ok _, w) =>
          let (r2, w) := spiTransfer [0x99] w
          match csSetHigh w with
          | (.error _, w) => (.error .Gpio, w)
          | (.ok _, w) =>
            match r2 with
            | .error _ => (.error .Spi, w)
            | .ok _ => (.ok (), w)

/-- `PSRAM::set_burst` (src/psram.rs lines 205-223): send the 0xC0 toggle when
exactly one of the old and new modes is 32-byte (SPI result checked with `?`
before `try_set_high`), then record the new mode.  Returns the result together
with the post-state of the driver record. -/
def set_burst (p : PSRAM) (burst : BurstLength) (w : W) :
    Except Error Unit × PSRAM × W :=
  if (burst = BurstLength.ThirtyTwoByte ∧ p.burst_length ≠ BurstLength.ThirtyTwoByte)
      ∨ (burst ≠ BurstLength.ThirtyTwoByte ∧ p.burst_length = BurstLength.ThirtyTwoByte) then
    match csSetLow w with
    | (.error _, w) => (.error .Gpio, p, w)
    | (.ok _, w) =>
      let (spi_result, w) := spiTransfer [0xC0] w
      match spi_result with
      | .error _ => (.error .Spi, p, w)
      | .ok _ =>
        match csSetHigh w with
        | (.error _, w) => (.error .Gpio, p, w)
        | (.ok _, w) => (.ok (), { p with burst_length := burst }, w)
  else
    (.ok (), { p with burst_length := burst }, w)

/-- `buf.chunks_mut(256)`: consecutive chunks of at most 256 bytes, the last
one possibly shorter; the empty buffer yields no chunks. -/
def chunks256 : List Nat → List (List Nat)
  | [] => []
  | b :: l => (b :: l.take 255) :: chunks256 (l.drop 255)
termination_by l => l.length
decreasing_by
  simp only [List.length_drop, List.length_cons]
  omega

/-- The 4-byte write command for a chunk: opcode 0x02 then the three
big-endian bytes `(addr >> 16) as u8`, `(addr >> 8) as u8`, `addr as u8`. -/
def writeCmd (addr : Nat) : List Nat :=
  [0x02, (addr >>> 16) % 256, (addr >>> 8) % 256, addr % 256]

/-- The loop body of `PSRAM::try_write_slice` (src/psram.rs lines 240-256),
over the remaining chunks, with `c` the index of the first of them.  The
chunk address `address + c * 256` goes through `try_into().unwrap()` to
`u32`, which panics when it does not fit. -/
def writeChunks (address : Nat) (chunks : List (List Nat)) (c : Nat) (w : W) :
    POut Unit × W :=
  match chunks with
  | [] => (.ok (), w)
  | chunk :: rest =>
    let current_addr := address + c * 256
    if current_addr < 2 ^ 32 then
      match csSetLow w with
      | (.error _, w) => (.err .Gpio, w)
      | (.ok _, w) =>
        let (r1, w) := spiTransfer (writeCmd current_addr) w
        let (spi_result, w) :=
          match r1 with
          | .ok _ => spiTransfer chunk w
          | .error e => (Except.error e, w)
        match csSetHigh w with
        | (.error _, w) => (.err .Gpio, w)
        | (.ok _, w) =>
          match spi_result with
          | .error _ => (.err .Spi, w)
          | .ok _ => writeChunks address rest (c + 1) w
    else
      (.panic, w)

/-- `PSRAM::try_write_slice` (src/psram.rs lines 235-258): partition the
buffer into 256-byte chunks and run the chunk loop from index 0. -/
def try_write_slice (address : Nat) (buf : List Nat) (w : W) : POut Unit × W :=
  writeChunks address (chunks256 buf) 0 w

/-- `PSRAM::try_write` (src/psram.rs lines 226-231): delegate to
`try_write_slice` with the one-byte buffer `[word]`. -/
def try_write (address : Nat) (word : Nat) (w : W) : POut Unit × W :=
  try_write_slice address [word] w

/-- `PSRAM::try_read_slice` (src/psram.rs lines 272-294): frame the 0x03 read
command with the three big-endian address bytes, assert chip-select, do the
command exchange, on its success do the payload exchange into the caller's
buffer, deassert chip-select, then surface any transfer failure.  Returns the
result, the final contents of the caller's buffer, and the world. -/
def try_read_slice (address : Nat) (buf : List Nat) (w : W) :
    Except Error Unit × List Nat × W :=
  let cmd_buf : List Nat :=
    [0x03, (address >>> 16) % 256, (address >>> 8) % 256, address % 256]
  match csSetLow w with
  | (.error _, w) => (.error .Gpio, buf, w)
  | (.ok _, w) =>
    let (r1, w) := spiTransfer cmd_buf w
    let (spi_result, buf2, w) :=
      match r1 with
      | .ok _ =>
        let (r2, w) := spiTransfer buf w
        match r2 with
        | .ok nb => (Except.ok (), nb, w)
        | .error _ => (Except.error (), buf, w)
      | .error _ => (Except.error (), buf, w)
    match csSetHigh w with
    | (.error _, w) => (.error .Gpio, buf2, w)
    | (.ok _, w) =>
      match spi_result with
      | .error _ => (.error .Spi, buf2, w)
      | .ok _ => (.ok (), buf2, w)

/-- `PSRAM::try_read` (src/psram.rs lines 263-267): read one byte through
`try_read_slice` with a one-byte zero buffer and return its element. -/
def try_read (address : Nat) (w : W) : Except Error Nat × W :=
  match try_read_slice address [0] w with
  | (.error e, _, w) => (.error e, w)
  | (.ok _, buf, w) => (.ok (buf.getD 0 0), w)

/-- `StorageSize::try_start_address` (src/psram.rs lines 299-301): constant
`Address(0)`, no bus activity, no state change. -/
def try_start_address (p : PSRAM) (w : W) : Except Error Nat × PSRAM × W :=
  (.ok 0, p, w)

/-- `StorageSize::try_total_size` (src/psram.rs lines 304-306): constant
`AddressOffset(8388608)`. -/
def try_total_size (p : PSRAM) (w : W) : Except Error Nat × PSRAM × W :=
  (.ok 8388608, p, w)

/-- `StorageSize::try_page_size` (src/psram.rs lines 309-311): constant
`AddressOffset(1024)`. -/
def try_page_size (p : PSRAM) (w : W) : Except Error Nat × PSRAM × W :=
  (.ok 1024, p, w)

/-- A world whose collaborators always succeed, the SPI responding with all
zeros. -/
def wAllOk : W :=
  { spiOut := fun _ => some [], spiIdx := 0, gpioOut := fun _ => true,
    gpioIdx := 0, events := [], csLevel := true }

/-- A world whose GPIO always succeeds but whose SPI transfers all fail. -/
def wSpiFail : W :=
  { spiOut := fun _ => none, spiIdx := 0, gpioOut := fun _ => true,
    gpioIdx := 0, events := [], csLevel := true }

/-- The expected bus trace of a successful multi-chunk write starting at
chunk index `c`: per chunk, assert, command exchange, payload exchange,
deassert. -/
def writeEvents (address : Nat) : List (List Nat) → Nat → List Ev
  | [], _ => []
  | chunk :: rest, c =>
      [Ev.csLow, Ev.spi (writeCmd (address + c * 256)), Ev.spi chunk, Ev.csHigh]
        ++ writeEvents address rest (c + 1)

/-- C9: the geometry queries always succeed with the fixed constants
(start address 0, total size 8388608 bytes, page size 1024 bytes) and
perform no bus transfer and no state change, in every driver state. -/
theorem geometry_queries_constant (p : PSRAM) (w : W) :
    try_start_address p w = (.ok 0, p, w) ∧
    try_total_size p w = (.ok 8388608, p, w) ∧
    try_page_size p w = (.ok 1024, p, w) :=
  ⟨rfl, rfl, rfl⟩

/-- C8: `Identification::from_bytes` fails with the Invalid-device error on
every buffer shorter than 10 bytes, and on every buffer of at least 10 bytes
whose first byte is not the vendor signature 0x0D. -/
theorem from_bytes_invalid_device (buf : List Nat) :
    (buf.length < 10 → from_bytes buf = .err .InvalidDevice) ∧
    (10 ≤ buf.length → buf.getD 0 0 ≠ 0x0D → from_bytes buf = .err .InvalidDevice) := by
  constructor
  · intro h
    simp [from_bytes, h]
  · intro h hne
    unfold from_bytes
    rw [if_neg (Nat.not_lt.mpr h), if_pos hne]

/-- Witness for C8: a 1-byte buffer and a 10-byte buffer with a wrong
signature both yield Invalid-device. -/
theorem from_bytes_invalid_device_witness :
    from_bytes [0x0D] = .err .InvalidDevice ∧
    from_bytes [0x0C, 0x5D, 1, 2, 3, 4, 5, 6, 0, 0] = .err .InvalidDevice :=
  ⟨(from_bytes_invalid_device [0x0D]).1 (by decide),
   (from_bytes_invalid_device [0x0C, 0x5D, 1, 2, 3, 4, 5, 6, 0, 0]).2
      (by decide) (by decide)⟩

/-- C2: evaluation at a well-formed identification buffer.  The claim says a
10-byte buffer starting `0x0D, 0x5D` parses to `Ok` with
`known_good_device = true` and `eid` the big-endian value of bytes 2-7; the
code instead panics: its copy loop writes `bytes[index + 2]` for every byte
of `buf[2..]` (at least 8 bytes once the length check passed), overrunning
the 8-byte array at `bytes[8]`.  Shown on a 10-byte and on a 12-byte buffer
(the shape `read_id` produces). -/
theorem from_bytes_valid_id_panics :
    from_bytes [0x0D, 0x5D, 1, 2, 3, 4, 5, 6, 0, 0] = POut.panic ∧
    from_bytes [0x0D, 0x5D, 1, 2, 3, 4, 5, 6, 0, 0, 0, 0] = POut.panic := by
  decide

/-- C1: evaluation at a world whose SPI transfer fails.  The internal
`command` primitive does deassert chip-select before surfacing the failure,
but the inline exchanges of `set_burst`, `init` (32-byte toggle) and `reset`
(reset-enable phase) check the SPI result before `try_set_high`: they return
the Spi error with the chip-select line still asserted low. -/
theorem spi_failure_leaves_cs_asserted :
    ((set_burst ⟨Freq.ThreeThree, BurstLength.None⟩ BurstLength.ThirtyTwoByte wSpiFail).1
        = Except.error Error.Spi ∧
     (set_burst ⟨Freq.ThreeThree, BurstLength.None⟩ BurstLength.ThirtyTwoByte wSpiFail).2.2.csLevel
        = false ∧
     (set_burst ⟨Freq.ThreeThree, BurstLength.None⟩ BurstLength.ThirtyTwoByte wSpiFail).2.2.events
        = [Ev.csLow, Ev.spi [0xC0]]) ∧
    ((init Freq.ThreeThree BurstLength.ThirtyTwoByte wSpiFail).1 = Except.error Error.Spi ∧
     (init Freq.ThreeThree BurstLength.ThirtyTwoByte wSpiFail).2.csLevel = false) ∧
    ((reset wSpiFail).1 = Except.error Error.Spi ∧
     (reset wSpiFail).2.csLevel = false) ∧
    ((command [0x9F] wSpiFail).1 = Except.error Error.Spi ∧
     (command [0x9F] wSpiFail).2.csLevel = true ∧
     (command [0x9F] wSpiFail).2.events = [Ev.csLow, Ev.spi [0x9F], Ev.csHigh]) :=
  ⟨⟨rfl, rfl, rfl⟩, ⟨rfl, rfl⟩, ⟨rfl, rfl⟩, ⟨rfl, rfl, rfl⟩⟩

/-- C10: `try_write` is the call `try_write_slice` with the one-byte buffer
`[word]`, and `try_read` behaves as `try_read_slice` with a one-byte buffer
followed by extraction of that buffer's single element: same world (same bus
exchanges), and the result is the buffer's element on success or the very
same error on failure. -/
theorem single_byte_ops_delegate (address word : Nat) (w : W) :
    try_write address word w = try_write_slice address [word] w ∧
    (try_read address w).2 = (try_read_slice address [0] w).2.2 ∧
    (try_read address w).1 =
      (match (try_read_slice address [0] w).1 with
       | .ok _ => .ok ((try_read_slice address [0] w).2.1.getD 0 0)
       | .error e => .error e) := by
  refine ⟨rfl, ?_, ?_⟩ <;>
  · unfold try_read
    rcases h : try_read_slice address [0] w with ⟨r, buf, w2⟩
    cases r <;> simp

/-- C7: `init` with any frequency class other than 33 MHz fails with the
Invalid-mode error and an unchanged world (no command reaches the device,
whatever the burst-length argument); whenever `init` succeeds the frequency
was the 33 MHz class and the returned driver records exactly the requested
frequency and burst length. -/
theorem init_rejects_non_33mhz (freq : Freq) (bl : BurstLength) (w : W) :
    (freq ≠ Freq.ThreeThree → init freq bl w = (.error .InvalidMode, w)) ∧
    (∀ q, (init freq bl w).1 = .ok q → freq = Freq.ThreeThree ∧ q = ⟨freq, bl⟩) := by
  constructor
  · intro h
    simp [init, h]
  · intro q hq
    by_cases h : freq = Freq.ThreeThree
    · subst h
      refine ⟨rfl, ?_⟩
      by_cases hb : bl = BurstLength.ThirtyTwoByte
      · subst hb
        by_cases hg0 : w.gpioOut w.gpioIdx
        · rcases hs0 : w.spiOut w.spiIdx with _ | r
          · simp [init, csSetLow, csSetHigh, spiTransfer, hg0, hs0] at hq
          · by_cases hg1 : w.gpioOut (w.gpioIdx + 1)
            · simp [init, csSetLow, csSetHigh, spiTransfer, hg0, hs0, hg1] at hq
              exact hq.symm
            · simp [init, csSetLow, csSetHigh, spiTransfer, hg0, hs0, hg1] at hq
        · simp [init, csSetLow, hg0] at hq
      · simp [init, hb] at hq
        exact hq.symm
    · simp [init, h] at hq

/-- Witness for C7: 84 MHz is rejected with an untouched world; a successful
33 MHz / 1-kilobyte init records those arguments. -/
theorem init_rejects_non_33mhz_witness :
    init Freq.EightyFour BurstLength.None wAllOk = (.error .InvalidMode, wAllOk) ∧
    (Freq.ThreeThree = Freq.ThreeThree ∧
      (⟨Freq.ThreeThree, BurstLength.OneKByte⟩ : PSRAM) =
        ⟨Freq.ThreeThree, BurstLength.OneKByte⟩) :=
  ⟨(init_rejects_non_33mhz Freq.EightyFour BurstLength.None wAllOk).1 (by decide),
   (init_rejects_non_33mhz Freq.ThreeThree BurstLength.OneKByte wAllOk).2
      ⟨Freq.ThreeThree, BurstLength.OneKByte⟩ rfl⟩

/-- C3: `set_burst` commits the new mode to the driver record only when the
whole exchange succeeded: on any error (control-line assertion, transfer, or
deassertion) the recorded burst length is unchanged, and on success it equals
the requested mode; a driver returned by `init` always records the requested
burst length (on a failed init toggle no driver is returned at all). -/
theorem set_burst_commit_after_confirm (p : PSRAM) (burst : BurstLength) (w : W) :
    (∀ e, (set_burst p burst w).1 = .error e → (set_burst p burst w).2.1 = p) ∧
    (∀ u, (set_burst p burst w).1 = .ok u →
        (set_burst p burst w).2.1 = { p with burst_length := burst }) ∧
    (∀ freq bl q, (init freq bl w).1 = .ok q → q.burst_length = bl) := by
  refine ⟨?_, ?_, ?_⟩
  · intro e he
    by_cases hc : (burst = BurstLength.ThirtyTwoByte ∧ p.burst_length ≠ BurstLength.ThirtyTwoByte)
        ∨ (burst ≠ BurstLength.ThirtyTwoByte ∧ p.burst_length = BurstLength.ThirtyTwoByte)
    · by_cases hg0 : w.gpioOut w.gpioIdx
      · rcases hs0 : w.spiOut w.spiIdx with _ | r
        · simp [set_burst, csSetLow, csSetHigh, spiTransfer, hc, hg0, hs0]
        · by_cases hg1 : w.gpioOut (w.gpioIdx + 1)
          · simp [set_burst, csSetLow, csSetHigh, spiTransfer, hc, hg0, hs0, hg1] at he
          · simp [set_burst, csSetLow, csSetHigh, spiTransfer, hc, hg0, hs0, hg1]
      · simp [set_burst, csSetLow, hc, hg0]
    · simp [set_burst, hc] at he
  · intro u hu
    by_cases hc : (burst = BurstLength.ThirtyTwoByte ∧ p.burst_length ≠ BurstLength.ThirtyTwoByte)
        ∨ (burst ≠ BurstLength.ThirtyTwoByte ∧ p.burst_length = BurstLength.ThirtyTwoByte)
    · by_cases hg0 : w.gpioOut w.gpioIdx
      · rcases hs0 : w.spiOut w.spiIdx with _ | r
        · simp [set_burst, csSetLow, csSetHigh, spiTransfer, hc, hg0, hs0] at hu
        · by_cases hg1 : w.gpioOut (w.gpioIdx + 1)
          · simp [set_burst, csSetLow, csSetHigh, spiTransfer, hc, hg0, hs0, hg1]
          · simp [set_burst, csSetLow, csSetHigh, spiTransfer, hc, hg0, hs0, hg1] at hu
      · simp [set_burst, csSetLow, hc, hg0] at hu
    · simp [set_burst, hc]
  · intro freq bl q hq
    by_cases h : freq = Freq.ThreeThree
    · subst h
      by_cases hb : bl = BurstLength.ThirtyTwoByte
      · subst hb
        by_cases hg0 : w.gpioOut w.gpioIdx
        · rcases hs0 : w.spiOut w.spiIdx with _ | r
          · simp [init, csSetLow, csSetHigh, spiTransfer, hg0, hs0] at hq
          · by_cases hg1 : w.gpioOut (w.gpioIdx + 1)
            · simp [init, csSetLow, csSetHigh, spiTransfer, hg0, hs0, hg1] at hq
              rw [← hq]
            · simp [init, csSetLow, csSetHigh, spiTransfer, hg0, hs0, hg1] at hq
        · simp [init, csSetLow, hg0] at hq
      · simp [init, hb] at hq
        rw [← hq]
    · simp [init, h] at hq

/-- Witness for C3: a failed toggle (SPI down) leaves the record on the old
mode; a successful toggle and a successful init record the new mode. -/
theorem set_burst_commit_after_confirm_witness :
    (set_burst ⟨Freq.ThreeThree, BurstLength.None⟩ BurstLength.ThirtyTwoByte wSpiFail).2.1
        = ⟨Freq.ThreeThree, BurstLength.None⟩ ∧
    (set_burst ⟨Freq.ThreeThree, BurstLength.None⟩ BurstLength.ThirtyTwoByte wAllOk).2.1
        = ⟨Freq.ThreeThree, BurstLength.ThirtyTwoByte⟩ ∧
    (⟨Freq.ThreeThree, BurstLength.ThirtyTwoByte⟩ : PSRAM).burst_length
        = BurstLength.ThirtyTwoByte :=
  ⟨(set_burst_commit_after_confirm ⟨Freq.ThreeThree, BurstLength.None⟩
      BurstLength.ThirtyTwoByte wSpiFail).1 Error.Spi rfl,
   (set_burst_commit_after_confirm ⟨Freq.ThreeThree, BurstLength.None⟩
      BurstLength.ThirtyTwoByte wAllOk).2.1 () rfl,
   (set_burst_commit_after_confirm ⟨Freq.ThreeThree, BurstLength.None⟩
      BurstLength.ThirtyTwoByte wAllOk).2.2 Freq.ThreeThree BurstLength.ThirtyTwoByte
      ⟨Freq.ThreeThree, BurstLength.ThirtyTwoByte⟩ rfl⟩

/-- C4: under a healthy bus, `set_burst` performs the single-exchange 0xC0
toggle exactly when one of the old and new modes (and not both) is the
32-byte mode, and appends no bus event at all otherwise (no-op transitions
and transitions between unrestricted and 1-kilobyte); the call succeeds in
both cases. -/
theorem set_burst_toggle_iff (p : PSRAM) (burst : BurstLength) (w : W)
    (resp : Nat → List Nat)
    (hs : ∀ n, w.spiOut n = some (resp n)) (hg : ∀ n, w.gpioOut n = true) :
    (set_burst p burst w).1 = .ok () ∧
    (set_burst p burst w).2.2.events =
      w.events ++
        (if (p.burst_length = BurstLength.ThirtyTwoByte) ↔ (burst = BurstLength.ThirtyTwoByte)
         then []
         else [Ev.csLow, Ev.spi [0xC0], Ev.csHigh]) := by
  obtain ⟨f, b⟩ := p
  cases b <;> cases burst <;>
    simp [set_burst, csSetLow, csSetHigh, spiTransfer, hs, hg]

/-- Witness for C4: from unrestricted, switching to 32-byte toggles once and
switching to 1-kilobyte sends nothing. -/
theorem set_burst_toggle_iff_witness :
    ((set_burst ⟨Freq.ThreeThree, BurstLength.None⟩ BurstLength.ThirtyTwoByte wAllOk).1
        = .ok () ∧
     (set_burst ⟨Freq.ThreeThree, BurstLength.None⟩ BurstLength.ThirtyTwoByte wAllOk).2.2.events =
       wAllOk.events ++
         (if (BurstLength.None = BurstLength.ThirtyTwoByte)
              ↔ (BurstLength.ThirtyTwoByte = BurstLength.ThirtyTwoByte)
          then []
          else [Ev.csLow, Ev.spi [0xC0], Ev.csHigh])) ∧
    ((set_burst ⟨Freq.ThreeThree, BurstLength.None⟩ BurstLength.OneKByte wAllOk).1
        = .ok () ∧
     (set_burst ⟨Freq.ThreeThree, BurstLength.None⟩ BurstLength.OneKByte wAllOk).2.2.events =
       wAllOk.events ++
         (if (BurstLength.None = BurstLength.ThirtyTwoByte)
              ↔ (BurstLength.OneKByte = BurstLength.ThirtyTwoByte)
          then []
          else [Ev.csLow, Ev.spi [0xC0], Ev.csHigh])) :=
  ⟨set_burst_toggle_iff ⟨Freq.ThreeThree, BurstLength.None⟩ BurstLength.ThirtyTwoByte wAllOk
      (fun _ => []) (fun _ => rfl) (fun _ => rfl),
   set_burst_toggle_iff ⟨Freq.ThreeThree, BurstLength.None⟩ BurstLength.OneKByte wAllOk
      (fun _ => []) (fun _ => rfl) (fun _ => rfl)⟩

/-- C6: under a healthy bus, `try_read_slice` asserts chip-select, exchanges
the 4-byte command `[0x03, a>>16, a>>8, a]` (big-endian low 24 address bits),
exchanges the payload directly in the caller's buffer and deasserts; when the
command-phase transfer fails, the payload exchange is skipped (a single SPI
event in the trace), the caller's buffer is untouched, and the chip-select
is deasserted before the Spi error is returned. -/
theorem try_read_slice_protocol (address : Nat) (buf : List Nat) (w wf : W)
    (resp : Nat → List Nat)
    (hs : ∀ n, w.spiOut n = some (resp n)) (hg : ∀ n, w.gpioOut n = true)
    (hfs : wf.spiOut wf.spiIdx = none) (hfg : ∀ n, wf.gpioOut n = true) :
    ((try_read_slice address buf w).1 = .ok () ∧
     (try_read_slice address buf w).2.2.events =
       w.events ++ [Ev.csLow,
         Ev.spi [0x03, (address >>> 16) % 256, (address >>> 8) % 256, address % 256],
         Ev.spi buf, Ev.csHigh]) ∧
    ((try_read_slice address buf wf).1 = .error .Spi ∧
     (try_read_slice address buf wf).2.1 = buf ∧
     (try_read_slice address buf wf).2.2.csLevel = true ∧
     (try_read_slice address buf wf).2.2.events =
       wf.events ++ [Ev.csLow,
         Ev.spi [0x03, (address >>> 16) % 256, (address >>> 8) % 256, address % 256],
         Ev.csHigh]) := by
  constructor
  · simp [try_read_slice, csSetLow, csSetHigh, spiTransfer, hs, hg]
  · simp [try_read_slice, csSetLow, csSetHigh, spiTransfer, hfs, hfg]

/-- Witness for C6: reading at address 0x001000 frames the command bytes
`[0x03, 0x00, 0x10, 0x00]` before the payload exchange, and with a dead SPI
the payload is skipped and chip-select ends deasserted. -/
theorem try_read_slice_protocol_witness :
    (((try_read_slice 0x001000 [0, 0, 0, 0] wAllOk).1 = .ok () ∧
      (try_read_slice 0x001000 [0, 0, 0, 0] wAllOk).2.2.events =
        wAllOk.events ++ [Ev.csLow, Ev.spi [0x03, 0x00, 0x10, 0x00],
          Ev.spi [0, 0, 0, 0], Ev.csHigh]) ∧
     ((try_read_slice 0x001000 [0, 0, 0, 0] wSpiFail).1 = .error .Spi ∧
      (try_read_slice 0x001000 [0, 0, 0, 0] wSpiFail).2.1 = [0, 0, 0, 0] ∧
      (try_read_slice 0x001000 [0, 0, 0, 0] wSpiFail).2.2.csLevel = true ∧
      (try_read_slice 0x001000 [0, 0, 0, 0] wSpiFail).2.2.events =
        wSpiFail.events ++ [Ev.csLow, Ev.spi [0x03, 0x00, 0x10, 0x00], Ev.csHigh])) :=
  try_read_slice_protocol 0x001000 [0, 0, 0, 0] wAllOk wSpiFail
    (fun _ => []) (fun _ => rfl) (fun _ => rfl) rfl (fun _ => rfl)

theorem chunks256_length (l : List Nat) :
    (chunks256 l).length = (l.length + 255) / 256 := by
  induction l using chunks256.induct with
  | case1 => simp [chunks256]
  | case2 b l ih =>
    rw [chunks256]
    simp only [List.length_cons, List.length_drop] at ih ⊢
    omega

theorem chunks256_getD (l : List Nat) (i : Nat) :
    (chunks256 l).getD i [] = (l.drop (256 * i)).take 256 := by
  induction l using chunks256.induct generalizing i with
  | case1 => simp [chunks256]
  | case2 b l ih =>
    rw [chunks256]
    cases i with
    | zero => simp
    | succ i =>
      have e : 256 * (i + 1) = (256 * i + 255) + 1 := by omega
      have e2 : 256 * i + 255 = 255 + 256 * i := by omega
      simp only [List.getD_cons_succ, ih i, List.drop_drop, e, List.drop_succ_cons, e2]

theorem writeChunks_all_ok (a : Nat) (chunks : List (List Nat)) (c : Nat) (w : W)
    (resp : Nat → List Nat)
    (hs : ∀ n, w.spiOut n = some (resp n)) (hg : ∀ n, w.gpioOut n = true)
    (hov : ∀ i, i < chunks.length → a + (c + i) * 256 < 2 ^ 32) :
    (writeChunks a chunks c w).1 = .ok () ∧
    (writeChunks a chunks c w).2.events = w.events ++ writeEvents a chunks c := by
  induction chunks generalizing c w with
  | nil => simp [writeChunks, writeEvents]
  | cons chunk rest ih =>
    have h0 : a + c * 256 < 2 ^ 32 := by
      have := hov 0 (by simp)
      omega
    have hov2 : ∀ i, i < rest.length → a + ((c + 1) + i) * 256 < 2 ^ 32 := by
      intro i h
      have := hov (i + 1) (by simpa using Nat.succ_lt_succ h)
      omega
    rw [writeChunks, if_pos h0]
    simp only [csSetLow, csSetHigh, spiTransfer, hs, hg, if_true, writeEvents]
    obtain ⟨ih1, ih2⟩ := ih (c + 1)
      { spiOut := w.spiOut, spiIdx := w.spiIdx + 1 + 1, gpioOut := w.gpioOut,
        gpioIdx := w.gpioIdx + 1 + 1,
        events := w.events ++ [Ev.csLow] ++ [Ev.spi (writeCmd (a + c * 256))]
          ++ [Ev.spi chunk] ++ [Ev.csHigh],
        csLevel := true } hs hg hov2
    refine ⟨ih1, ?_⟩
    rw [ih2]
    simp

theorem writeChunks_abort (a : Nat) (chunks : List (List Nat)) (j c : Nat) (w : W)
    (resp : Nat → List Nat)
    (hg : ∀ n, w.gpioOut n = true)
    (hs : ∀ n, n < 2 * j → w.spiOut (w.spiIdx + n) = some (resp n))
    (hf : w.spiOut (w.spiIdx + 2 * j) = none)
    (hj : j < chunks.length)
    (hov : ∀ i, i ≤ j → a + (c + i) * 256 < 2 ^ 32) :
    (writeChunks a chunks c w).1 = .err .Spi ∧
    (writeChunks a chunks c w).2.events =
      w.events ++ writeEvents a (chunks.take j) c
        ++ [Ev.csLow, Ev.spi (writeCmd (a + (c + j) * 256)), Ev.csHigh] := by
  induction chunks generalizing j c w resp with
  | nil => simp at hj
  | cons chunk rest ih =>
    have h0 : a + c * 256 < 2 ^ 32 := by
      have := hov 0 (by omega)
      omega
    cases j with
    | zero =>
      have hf0 : w.spiOut w.spiIdx = none := by simpa using hf
      rw [writeChunks, if_pos h0]
      simp [csSetLow, csSetHigh, spiTransfer, hg, hf0, writeEvents]
    | succ j =>
      have hs0 : w.spiOut w.spiIdx = some (resp 0) := by simpa using hs 0 (by omega)
      have hs1 : w.spiOut (w.spiIdx + 1) = some (resp 1) := hs 1 (by omega)
      rw [writeChunks, if_pos h0]
      simp only [csSetLow, csSetHigh, spiTransfer, hg, hs0, hs1, if_true]
      obtain ⟨ih1, ih2⟩ := ih j (c + 1)
        { spiOut := w.spiOut, spiIdx := w.spiIdx + 1 + 1, gpioOut := w.gpioOut,
          gpioIdx := w.gpioIdx + 1 + 1,
          events := w.events ++ [Ev.csLow] ++ [Ev.spi (writeCmd (a + c * 256))]
            ++ [Ev.spi chunk] ++ [Ev.csHigh],
          csLevel := true } (fun n => resp (n + 2)) hg
        (by
          intro n hn
          have e : w.spiIdx + 1 + 1 + n = w.spiIdx + (n + 2) := by omega
          show w.spiOut (w.spiIdx + 1 + 1 + n) = some (resp (n + 2))
          rw [e]
          exact hs (n + 2) (by omega))
        (by
          have e : w.spiIdx + 1 + 1 + 2 * j = w.spiIdx + 2 * (j + 1) := by omega
          show w.spiOut (w.spiIdx + 1 + 1 + 2 * j) = none
          rw [e]
          exact hf)
        (by simpa using hj)
        (by
          intro i hi
          have := hov (i + 1) (by omega)
          omega)
      refine ⟨ih1, ?_⟩
      rw [ih2]
      have e : c + 1 + j = c + (j + 1) := by omega
      rw [e, List.take_succ_cons, writeEvents]
      simp

set_option maxRecDepth 10000

/-- C5 counterexample: at address 4294967040 (= 2^32 - 256) a 257-byte write
has 2 chunks, but the second chunk's address 2^32 does not fit in `u32`, so
the `try_into().unwrap()` panics instead of the write performing both chunk
exchanges. -/
theorem try_write_slice_address_overflow :
    (try_write_slice 4294967040 (List.replicate 257 7) wAllOk).1 = POut.panic ∧
    (chunks256 (List.replicate 257 7)).length = 2 := by
  have h1 : chunks256 [7] = [[7]] := by
    rw [chunks256]
    simp [chunks256]
  have ht : (List.replicate 256 7).take 255 = List.replicate 255 7 := by decide
  have hd : (List.replicate 256 7).drop 255 = [7] := by decide
  have hc : chunks256 (List.replicate 257 7) = [List.replicate 256 7, [7]] := by
    rw [show List.replicate 257 7 = 7 :: List.replicate 256 7 from rfl, chunks256]
    rw [ht, hd, h1]
    rfl
  constructor
  · rw [try_write_slice, hc]
    rfl
  · rw [hc]
    rfl

/-- C5 (amended with the in-range proviso the counterexample forces): when
every chunk address `a + 256*i` fits in `u32`, writing `n` bytes at `a`
performs, under a healthy bus, exactly the `ceil(n/256)` chunk exchanges in
increasing chunk order — per chunk assert, command `[0x02, be24(a + 256*i)]`,
payload, deassert — where chunk `i` is bytes `256*i..256*i+255` of the
buffer, so all chunks have size 256 except the final one of size `n mod 256`
(or 256 when `n` is an exact multiple); and when the `j`-th chunk's command
transfer fails the operation stops with the single Spi error after the `j`
completed earlier chunks (which stay written) plus the failed chunk's
assert/command/deassert. -/
theorem try_write_slice_chunking (a : Nat) (buf : List Nat) (w wf : W)
    (resp respf : Nat → List Nat) (j : Nat)
    (hs : ∀ n, w.spiOut n = some (resp n)) (hg : ∀ n, w.gpioOut n = true)
    (hov : ∀ i, i < (chunks256 buf).length → a + i * 256 < 2 ^ 32)
    (hfg : ∀ n, wf.gpioOut n = true)
    (hfs : ∀ n, n < 2 * j → wf.spiOut (wf.spiIdx + n) = some (respf n))
    (hff : wf.spiOut (wf.spiIdx + 2 * j) = none)
    (hj : j < (chunks256 buf).length) :
    ((chunks256 buf).length = (buf.length + 255) / 256) ∧
    (∀ i, (chunks256 buf).getD i [] = (buf.drop (256 * i)).take 256) ∧
    (∀ i, i + 1 < (chunks256 buf).length → ((chunks256 buf).getD i []).length = 256) ∧
    (buf ≠ [] →
      ((chunks256 buf).getD ((chunks256 buf).length - 1) []).length =
        (if buf.length % 256 = 0 then 256 else buf.length % 256)) ∧
    ((try_write_slice a buf w).1 = .ok () ∧
     (try_write_slice a buf w).2.events =
       w.events ++ writeEvents a (chunks256 buf) 0) ∧
    ((try_write_slice a buf wf).1 = .err .Spi ∧
     (try_write_slice a buf wf).2.events =
       wf.events ++ writeEvents a ((chunks256 buf).take j) 0
         ++ [Ev.csLow, Ev.spi (writeCmd (a + j * 256)), Ev.csHigh]) := by
  refine ⟨chunks256_length buf, fun i => chunks256_getD buf i, ?_, ?_, ?_, ?_⟩
  · intro i hi
    rw [chunks256_length] at hi
    rw [chunks256_getD]
    simp only [List.length_take, List.length_drop]
    omega
  · intro hne
    have hpos : 0 < buf.length := List.length_pos.mpr hne
    rw [chunks256_length, chunks256_getD]
    simp only [List.length_take, List.length_drop]
    split
    · omega
    · omega
  · have := writeChunks_all_ok a (chunks256 buf) 0 w resp hs hg
      (by
        intro i h
        have := hov i h
        omega)
    exact ⟨this.1, this.2⟩
  · have := writeChunks_abort a (chunks256 buf) j 0 wf respf hfg hfs hff hj
      (by
        intro i hi
        have := hov i (by omega)
        omega)
    refine ⟨this.1, ?_⟩
    rw [try_write_slice, this.2]
    have e : 0 + j = j := by omega
    rw [e]

/-- Witness for C5: a 300-byte write at address 0 with a healthy bus performs
its two chunk exchanges; with a dead SPI it aborts on chunk 0 after the
assert/command/deassert of that chunk. -/
theorem try_write_slice_chunking_witness :
    ((chunks256 (List.replicate 300 5)).length =
        ((List.replicate 300 5).length + 255) / 256) ∧
    ((try_write_slice 0 (List.replicate 300 5) wAllOk).1 = .ok () ∧
     (try_write_slice 0 (List.replicate 300 5) wAllOk).2.events =
       wAllOk.events ++ writeEvents 0 (chunks256 (List.replicate 300 5)) 0) ∧
    ((try_write_slice 0 (List.replicate 300 5) wSpiFail).1 = .err .Spi ∧
     (try_write_slice 0 (List.replicate 300 5) wSpiFail).2.events =
       wSpiFail.events ++ writeEvents 0 ((chunks256 (List.replicate 300 5)).take 0) 0
         ++ [Ev.csLow, Ev.spi (writeCmd (0 + 0 * 256)), Ev.csHigh]) := by
  have h := try_write_slice_chunking 0 (List.replicate 300 5) wAllOk wSpiFail
    (fun _ => []) (fun _ => []) 0
    (fun _ => rfl) (fun _ => rfl)
    (by
      intro i hi
      rw [chunks256_length] at hi
      simp only [List.length_replicate] at hi
      omega)
    (fun _ => rfl)
    (fun n hn => absurd hn (by omega))
    rfl
    (by
      rw [chunks256_length]
      simp)
  exact ⟨h.1, h.2.2.2.2.1, h.2.2.2.2.2⟩

